import Mathlib

/-!
Shallow embedding of the anti-bot protection layer of `app.py` (the Flask
wrapper around the `lbc` client) together with the small parts of the `lbc`
library that the repository's tests pin down.

Modelling conventions: wall-clock time is an explicit rational parameter
(`now` is the value read by `time.time()` on entry, `time.sleep` is exact and
the code between two clock reads takes no time), the values drawn by
`random.uniform` are explicit rational parameters, and the wrapped network
operation is an attempt-indexed outcome function — exactly the way the
repository's own test suite mocks the backend.  Observable actions of a
request cycle (query building, the rate gate, identity selection, sending a
request, backoff waits) are recorded in an event trace.
-/

namespace LbcApp

/-- Proxy configuration entry as stored in `DatadomeProtection.proxies`
(`host`, `port`, optional `username` / `password`), mirroring `_load_proxies`
and the fields copied into `Proxy(...)` by `get_next_proxy`. -/
structure ProxyConf where
  host : String
  port : Nat
  username : Option String
  password : Option String
deriving DecidableEq

/-- Mutable state of the `DatadomeProtection` singleton (`__init__`): request
counter, last stamped request time, configured delays, proxy pool and rotation
cursor.  The user-agent list does not influence any control flow and is
omitted. -/
structure ProtectionState where
  request_count : Nat
  last_request_time : ℚ
  min_delay : ℚ
  max_delay : ℚ
  proxies : List ProxyConf
  current_proxy_index : Nat
deriving DecidableEq

/-- State built by `DatadomeProtection.__init__`: `request_count = 0`,
`last_request_time = 0`, `min_delay = 2`, `max_delay = 5`, and the proxy pool
returned by `_load_proxies`, which is the empty list. -/
def protectionInit : ProtectionState :=
  { request_count := 0
    last_request_time := 0
    min_delay := 2
    max_delay := 5
    proxies := []
    current_proxy_index := 0 }

/-- Embedding of `DatadomeProtection.apply_rate_limiting`.  `now` is the value
of `time.time()` on entry and `r` the value drawn by
`random.uniform(0, self.max_delay - self.min_delay)`; since `time.sleep` is
modelled as exact, the second `time.time()` call reads `now + sleep_time`.
Returns the slept duration together with the updated state (stamped
`last_request_time`, incremented `request_count`). -/
def apply_rate_limiting (s : ProtectionState) (now r : ℚ) : ℚ × ProtectionState :=
  let time_since_last := now - s.last_request_time
  if time_since_last < s.min_delay then
    let sleep_time := s.min_delay - time_since_last + r
    (sleep_time,
      { s with last_request_time := now + sleep_time
               request_count := s.request_count + 1 })
  else
    (0, { s with last_request_time := now, request_count := s.request_count + 1 })

/-- C3: the rate gate never stamps two consecutive request times less than
`min_delay` apart.  For a random draw `r ∈ [0, max_delay - min_delay]`, the
newly stamped `last_request_time` is at least `min_delay` after the previous
stamp; and whenever the elapsed time is below `min_delay` the caller sleeps
exactly `(min_delay - elapsed) + r`, the new stamp is taken right after that
sleep, and it is at most `max_delay` after the previous stamp. -/
theorem rate_gate_min_spacing (s : ProtectionState) (now r : ℚ) (hr0 : 0 ≤ r)
    (hr1 : r ≤ s.max_delay - s.min_delay) :
    s.last_request_time + s.min_delay ≤
      ((apply_rate_limiting s now r).2).last_request_time ∧
    (now - s.last_request_time < s.min_delay →
      (apply_rate_limiting s now r).1 = s.min_delay - (now - s.last_request_time) + r ∧
      ((apply_rate_limiting s now r).2).last_request_time
        = now + (apply_rate_limiting s now r).1 ∧
      ((apply_rate_limiting s now r).2).last_request_time
        ≤ s.last_request_time + s.max_delay) := by
  unfold apply_rate_limiting
  by_cases h : now - s.last_request_time < s.min_delay
  · simp only [if_pos h]
    exact ⟨by linarith, fun _ => ⟨trivial, trivial, by linarith⟩⟩
  · simp only [if_neg h]
    exact ⟨by linarith [not_lt.mp h], fun hc => absurd hc h⟩

/-- Witness for `rate_gate_min_spacing`: in the initial state (previous stamp
at time 0, `min_delay = 2`, `max_delay = 5`), a call at time 1 with random
draw 1 stamps a time at least 2 after the previous stamp. -/
theorem rate_gate_min_spacing_witness :
    protectionInit.last_request_time + protectionInit.min_delay ≤
      ((apply_rate_limiting protectionInit 1 1).2).last_request_time :=
  (rate_gate_min_spacing protectionInit 1 1 (by norm_num)
    (by norm_num [protectionInit])).1

/-- Embedding of `DatadomeProtection.get_next_proxy`: with an empty pool it
returns `None`; otherwise it reads the pool at the rotation cursor, advances
the cursor by one modulo the pool size, and returns the proxy.  The source
indexes `self.proxies[self.current_proxy_index]` directly; the `none` branch
of the inner `match` corresponds to the `IndexError` that a cursor beyond the
pool would raise, which is unreachable because the cursor starts at 0 and is
always reduced modulo the pool length. -/
def get_next_proxy (s : ProtectionState) : Option ProxyConf × ProtectionState :=
  if s.proxies.isEmpty then (none, s)
  else
    match s.proxies.get? s.current_proxy_index with
    | some cfg =>
      (some cfg,
        { s with current_proxy_index := (s.current_proxy_index + 1) % s.proxies.length })
    | none => (none, s)

/-- Client as observed through `lbc.Client(proxy=...)` / `lbc.Client()`: the
only aspect `app.py` controls is which proxy (if any) the client is built
with. -/
structure Client where
  proxy : Option ProxyConf
deriving DecidableEq

/-- Embedding of `DatadomeProtection.create_client_with_protection`: take the
next proxy from the rotation and build a client with it, or a direct
(proxyless) client when the pool yields none. -/
def create_client_with_protection (s : ProtectionState) : Client × ProtectionState :=
  match get_next_proxy s with
  | (some proxy, s1) => ({ proxy := some proxy }, s1)
  | (none, s1) => ({ proxy := none }, s1)

/-- State of the protection singleton after `k` successive calls to
`get_next_proxy`. -/
def proxyCalls (s : ProtectionState) : Nat → ProtectionState
  | 0 => s
  | k + 1 => (get_next_proxy (proxyCalls s k)).2

/-- Helper: one `get_next_proxy` call on a non-empty pool with an in-range
cursor returns the pool entry at the cursor and advances the cursor modulo
the pool size, leaving the pool itself unchanged. -/
theorem get_next_proxy_step (s : ProtectionState)
    (hlt : s.current_proxy_index < s.proxies.length) :
    (get_next_proxy s).1 = s.proxies.get? s.current_proxy_index ∧
    (get_next_proxy s).2.proxies = s.proxies ∧
    (get_next_proxy s).2.current_proxy_index
      = (s.current_proxy_index + 1) % s.proxies.length := by
  have hne : ¬ s.proxies.isEmpty := by
    cases hp : s.proxies with
    | nil => rw [hp] at hlt; simp at hlt
    | cons a l => simp [hp]
  unfold get_next_proxy
  rw [if_neg hne]
  have : ∃ c, s.proxies.get? s.current_proxy_index = some c :=
    ⟨s.proxies.get ⟨_, hlt⟩, List.get?_eq_get hlt⟩
  obtain ⟨c, hc⟩ := this
  rw [hc]
  exact ⟨rfl, rfl, rfl⟩

/-- Helper: after `k` calls on a non-empty pool with an in-range cursor, the
pool is unchanged and the cursor sits at `(start + k) % n`. -/
theorem proxyCalls_cursor (s : ProtectionState)
    (hlt : s.current_proxy_index < s.proxies.length) (k : Nat) :
    (proxyCalls s k).proxies = s.proxies ∧
    (proxyCalls s k).current_proxy_index
      = (s.current_proxy_index + k) % s.proxies.length := by
  induction k with
  | zero => exact ⟨rfl, (Nat.mod_eq_of_lt hlt).symm⟩
  | succ k ih =>
    have hn : 0 < s.proxies.length := Nat.lt_of_le_of_lt (Nat.zero_le _) hlt
    have hcur : (proxyCalls s k).current_proxy_index < (proxyCalls s k).proxies.length := by
      rw [ih.1, ih.2]; exact Nat.mod_lt _ hn
    have hstep := get_next_proxy_step (proxyCalls s k) hcur
    refine ⟨by rw [show proxyCalls s (k+1) = (get_next_proxy (proxyCalls s k)).2 from rfl,
      hstep.2.1, ih.1], ?_⟩
    rw [show proxyCalls s (k+1) = (get_next_proxy (proxyCalls s k)).2 from rfl,
      hstep.2.2, ih.1, ih.2]
    rw [Nat.mod_add_mod]
    rfl

/-- C6: proxy rotation is round-robin with wrap-around.  With an empty pool,
`create_client_with_protection` builds a direct (proxyless) client and leaves
the state untouched; with a non-empty pool and an in-range cursor, the `k`-th
successive `get_next_proxy` call returns the pool entry at index
`(cursor + k) % n`. -/
theorem proxy_round_robin (s : ProtectionState) :
    (s.proxies = [] → create_client_with_protection s = ({ proxy := none }, s)) ∧
    (s.current_proxy_index < s.proxies.length →
      ∀ k, (get_next_proxy (proxyCalls s k)).1
        = s.proxies.get? ((s.current_proxy_index + k) % s.proxies.length)) := by
  constructor
  · intro hp
    unfold create_client_with_protection get_next_proxy
    rw [if_pos (by simp [hp])]
  · intro hlt k
    have hk := proxyCalls_cursor s hlt k
    have hn : 0 < s.proxies.length := Nat.lt_of_le_of_lt (Nat.zero_le _) hlt
    have hcur : (proxyCalls s k).current_proxy_index < (proxyCalls s k).proxies.length := by
      rw [hk.1, hk.2]; exact Nat.mod_lt _ hn
    have hstep := get_next_proxy_step (proxyCalls s k) hcur
    rw [hstep.1, hk.1, hk.2]

/-- Concrete two-entry proxy pool used to witness rotation. -/
def poolExample : ProtectionState :=
  { protectionInit with
    proxies := [⟨"p1", 8080, none, none⟩, ⟨"p2", 8081, none, none⟩] }

/-- Witness for `proxy_round_robin`: on a two-proxy pool with cursor 0, the
third call wraps around and returns the pool entry at index `(0 + 2) % 2 = 0`,
and on the initial (empty-pool) state the client is direct. -/
theorem proxy_round_robin_witness :
    (get_next_proxy (proxyCalls poolExample 2)).1
      = poolExample.proxies.get? ((poolExample.current_proxy_index + 2) % poolExample.proxies.length) ∧
    create_client_with_protection protectionInit = ({ proxy := none }, protectionInit) :=
  ⟨(proxy_round_robin poolExample).2 (by decide) 2,
    (proxy_round_robin protectionInit).1 rfl⟩

/-- Exception classes relevant to the retry logic of `app.py`: a
`DatadomeError` (the anti-bot block signal) or any other exception
(`RequestError`, `NotFoundError`, timeouts, ...), each carrying its message. -/
inductive PyError where
  | datadome (e : String)
  | other (e : String)
deriving DecidableEq

/-- Result of one invocation of the wrapped operation: either a return value
or a raised exception. -/
inductive Outcome (α : Type) where
  | ok (v : α)
  | exn (e : PyError)
deriving DecidableEq

/-- Observable actions of a request cycle, recorded in order: query building,
the rate gate (`apply_rate_limiting`), identity selection
(`create_client_with_protection`), sending the request of a given attempt,
and a backoff wait of a given duration after a blocked attempt. -/
inductive Event where
  | buildQuery
  | rateGate
  | identitySelect
  | send (attempt : Nat)
  | backoffWait (attempt : Nat) (amount : ℚ)
deriving DecidableEq

/-- Result of `retry_with_backoff`: the returned value or raised exception
(`none` only when the loop body never runs, i.e. `max_retries = 0`, where the
Python function falls through and returns `None`), the final protection
state, the recorded event trace, and the number of times the wrapped
operation was invoked. -/
structure RetryResult (α : Type) where
  result : Option (Except PyError α)
  state : ProtectionState
  trace : List Event
  calls : Nat

/-- Embedding of the loop body of `DatadomeProtection.retry_with_backoff`.
The wrapped operation `func` receives the attempt number and the current
protection state and reports an outcome, an updated state and its own events;
`rand01 i` is the value drawn by `random.uniform(0, 1)` after attempt `i`.
The Python loop `for attempt in range(max_retries)` is driven by the number
of remaining iterations, so `remaining` counts down from `max_retries` and
the current attempt index is `max_retries - remaining`.  A `DatadomeError` on
the last attempt (`attempt == max_retries - 1`) is re-raised; on an earlier
attempt the loop sleeps `2 ** attempt + random.uniform(0, 1)` seconds,
creates a fresh client (advancing the rotation cursor) and retries; any other
exception is re-raised immediately. -/
def retryLoop {α : Type} (func : Nat → ProtectionState → Outcome α × ProtectionState × List Event)
    (rand01 : Nat → ℚ) (max_retries : Nat) : Nat → ProtectionState → RetryResult α
  | 0, s => ⟨none, s, [], 0⟩
  | remaining + 1, s =>
    match func (max_retries - (remaining + 1)) s with
    | (Outcome.ok v, s1, evs) => ⟨some (Except.ok v), s1, evs, 1⟩
    | (Outcome.exn (PyError.datadome e), s1, evs) =>
      if max_retries - (remaining + 1) = max_retries - 1 then
        ⟨some (Except.error (PyError.datadome e)), s1, evs, 1⟩
      else
        let rest := retryLoop func rand01 max_retries remaining
          (create_client_with_protection s1).2
        ⟨rest.result, rest.state,
          evs ++ Event.backoffWait (max_retries - (remaining + 1))
              ((2 : ℚ) ^ (max_retries - (remaining + 1)) + rand01 (max_retries - (remaining + 1)))
            :: Event.identitySelect :: rest.trace,
          1 + rest.calls⟩
    | (Outcome.exn (PyError.other e), s1, evs) => ⟨some (Except.error (PyError.other e)), s1, evs, 1⟩

/-- Embedding of `DatadomeProtection.retry_with_backoff(func, max_retries)`:
run the loop with all `max_retries` iterations remaining. -/
def retry_with_backoff {α : Type}
    (func : Nat → ProtectionState → Outcome α × ProtectionState × List Event)
    (rand01 : Nat → ℚ) (s : ProtectionState) (max_retries : Nat) : RetryResult α :=
  retryLoop func rand01 max_retries max_retries s

/-- Helper: one-step unfolding of `retryLoop` with at least one remaining
iteration. -/
theorem retryLoop_succ {α : Type}
    (func : Nat → ProtectionState → Outcome α × ProtectionState × List Event)
    (rand01 : Nat → ℚ) (N r : Nat) (s : ProtectionState) :
    retryLoop func rand01 N (r + 1) s
      = match func (N - (r + 1)) s with
        | (Outcome.ok v, s1, evs) => ⟨some (Except.ok v), s1, evs, 1⟩
        | (Outcome.exn (PyError.datadome e), s1, evs) =>
          if N - (r + 1) = N - 1 then
            ⟨some (Except.error (PyError.datadome e)), s1, evs, 1⟩
          else
            ⟨(retryLoop func rand01 N r (create_client_with_protection s1).2).result,
             (retryLoop func rand01 N r (create_client_with_protection s1).2).state,
             evs ++ Event.backoffWait (N - (r + 1))
                 ((2 : ℚ) ^ (N - (r + 1)) + rand01 (N - (r + 1)))
               :: Event.identitySelect
               :: (retryLoop func rand01 N r (create_client_with_protection s1).2).trace,
             1 + (retryLoop func rand01 N r (create_client_with_protection s1).2).calls⟩
        | (Outcome.exn (PyError.other e), s1, evs) =>
          ⟨some (Except.error (PyError.other e)), s1, evs, 1⟩ := rfl

/-- Helper: if every attempt from the current one on raises `DatadomeError`,
the loop runs all remaining iterations and re-raises the error of the last
attempt, having invoked the operation once per remaining iteration. -/
theorem retryLoop_all_blocked {α : Type}
    (func : Nat → ProtectionState → Outcome α × ProtectionState × List Event)
    (rand01 : Nat → ℚ) (N : Nat) (m : Nat → String) :
    ∀ g s, g + 1 ≤ N →
      (∀ i st, N - (g + 1) ≤ i → i < N →
        (func i st).1 = Outcome.exn (PyError.datadome (m i))) →
      (retryLoop func rand01 N (g + 1) s).result
          = some (Except.error (PyError.datadome (m (N - 1)))) ∧
      (retryLoop func rand01 N (g + 1) s).calls = g + 1 := by
  intro g
  induction g with
  | zero =>
    intro s hg hbl
    rcases hf : func (N - (0 + 1)) s with ⟨out, s1, evs⟩
    have hout : out = Outcome.exn (PyError.datadome (m (N - (0 + 1)))) := by
      have h2 := hbl (N - (0 + 1)) s (le_refl _) (by omega)
      rw [hf] at h2
      exact h2
    subst hout
    rw [retryLoop_succ, hf]
    dsimp only
    rw [if_pos (by omega : N - (0 + 1) = N - 1)]
    exact ⟨by rw [show N - (0 + 1) = N - 1 from by omega], rfl⟩
  | succ g ih =>
    intro s hg hbl
    rcases hf : func (N - (g + 1 + 1)) s with ⟨out, s1, evs⟩
    have hout : out = Outcome.exn (PyError.datadome (m (N - (g + 1 + 1)))) := by
      have h2 := hbl (N - (g + 1 + 1)) s (le_refl _) (by omega)
      rw [hf] at h2
      exact h2
    subst hout
    have hne : ¬ (N - (g + 1 + 1) = N - 1) := by omega
    have hrec := ih ((create_client_with_protection s1).2) (by omega)
      (fun i st h1 h2 => hbl i st (by omega) h2)
    rw [retryLoop_succ, hf]
    dsimp only
    rw [if_neg hne]
    exact ⟨hrec.1, by dsimp only; rw [hrec.2]; omega⟩

/-- Helper: if the attempts from the current one up to the `c`-th following
one raise `DatadomeError` and that `c`-th following attempt returns a value,
the loop returns that value after exactly `c + 1` invocations. -/
theorem retryLoop_success {α : Type}
    (func : Nat → ProtectionState → Outcome α × ProtectionState × List Event)
    (rand01 : Nat → ℚ) (N : Nat) (m : Nat → String) (v : α) :
    ∀ c g, c ≤ g → ∀ s, g + 1 ≤ N →
      (∀ i st, N - (g + 1) ≤ i → i < N - (g + 1) + c →
        (func i st).1 = Outcome.exn (PyError.datadome (m i))) →
      (∀ st, (func (N - (g + 1) + c) st).1 = Outcome.ok v) →
      (retryLoop func rand01 N (g + 1) s).result = some (Except.ok v) ∧
      (retryLoop func rand01 N (g + 1) s).calls = c + 1 := by
  intro c
  induction c with
  | zero =>
    intro g hcg s hg hbl hok
    rcases hf : func (N - (g + 1)) s with ⟨out, s1, evs⟩
    have hout : out = Outcome.ok v := by
      have h2 := hok s
      rw [Nat.add_zero, hf] at h2
      exact h2
    subst hout
    rw [retryLoop_succ, hf]
    exact ⟨rfl, rfl⟩
  | succ c ih =>
    intro g hcg s hg hbl hok
    obtain ⟨g', hg'⟩ : ∃ g', g = g' + 1 := ⟨g - 1, by omega⟩
    subst hg'
    rcases hf : func (N - (g' + 1 + 1)) s with ⟨out, s1, evs⟩
    have hout : out = Outcome.exn (PyError.datadome (m (N - (g' + 1 + 1)))) := by
      have h2 := hbl (N - (g' + 1 + 1)) s (le_refl _) (by omega)
      rw [hf] at h2
      exact h2
    subst hout
    have hne : ¬ (N - (g' + 1 + 1) = N - 1) := by omega
    have hrec := ih g' (by omega) ((create_client_with_protection s1).2) (by omega)
      (fun i st h1 h2 => hbl i st (by omega) (by omega))
      (fun st => by
        rw [show N - (g' + 1) + c = N - (g' + 1 + 1) + (c + 1) from by omega]
        exact hok st)
    rw [retryLoop_succ, hf]
    dsimp only
    rw [if_neg hne]
    exact ⟨hrec.1, by dsimp only; rw [hrec.2]; omega⟩

/-- C1: the retry budget is respected exactly.  For every `max_retries = N ≥ 1`
and every wrapped operation: if every attempt raises `DatadomeError`, the
operation is invoked exactly `N` times and the final `DatadomeError` is
re-raised to the caller; if the operation first succeeds on attempt
`k ≤ N` (with the earlier attempts all blocked), it is invoked exactly `k`
times and its success value is returned. -/
theorem retry_budget_and_success {α : Type}
    (func : Nat → ProtectionState → Outcome α × ProtectionState × List Event)
    (rand01 : Nat → ℚ) (s : ProtectionState) (N : Nat) (m : Nat → String)
    (hN : 1 ≤ N) :
    ((∀ i st, i < N → (func i st).1 = Outcome.exn (PyError.datadome (m i))) →
      (retry_with_backoff func rand01 s N).result
          = some (Except.error (PyError.datadome (m (N - 1)))) ∧
      (retry_with_backoff func rand01 s N).calls = N) ∧
    (∀ k v, 1 ≤ k → k ≤ N →
      (∀ i st, i < k - 1 → (func i st).1 = Outcome.exn (PyError.datadome (m i))) →
      (∀ st, (func (k - 1) st).1 = Outcome.ok v) →
      (retry_with_backoff func rand01 s N).result = some (Except.ok v) ∧
      (retry_with_backoff func rand01 s N).calls = k) := by
  obtain ⟨g, hgN⟩ : ∃ g, N = g + 1 := ⟨N - 1, by omega⟩
  subst hgN
  constructor
  · intro hbl
    have hrun := retryLoop_all_blocked func rand01 (g + 1) m g s (by omega)
      (fun i st h1 h2 => hbl i st h2)
    rw [retry_with_backoff]
    exact ⟨hrun.1, hrun.2⟩
  · intro k v hk1 hkN hbl hok
    have hrun := retryLoop_success func rand01 (g + 1) m v (k - 1) g (by omega) s (by omega)
      (fun i st h1 h2 => hbl i st (by omega))
      (fun st => by
        rw [show g + 1 - (g + 1) + (k - 1) = k - 1 from by omega]
        exact hok st)
    rw [retry_with_backoff]
    exact ⟨hrun.1, by rw [hrun.2]; omega⟩

/-- Witness for `retry_budget_and_success`: with `max_retries = 2` and an
operation that always raises `DatadomeError`, exactly 2 calls occur and the
error is re-raised; with `max_retries = 3` and an operation blocked on the
first attempt and succeeding on the second, exactly 2 calls occur and the
value 42 is returned. -/
theorem retry_budget_and_success_witness :
    ((retry_with_backoff (fun _ st => ((Outcome.exn (PyError.datadome "blocked") : Outcome Nat), st, []))
        (fun _ => 0) protectionInit 2).result
      = some (Except.error (PyError.datadome "blocked")) ∧
     (retry_with_backoff (fun _ st => ((Outcome.exn (PyError.datadome "blocked") : Outcome Nat), st, []))
        (fun _ => 0) protectionInit 2).calls = 2) ∧
    ((retry_with_backoff
        (fun i st => (if i = 0 then Outcome.exn (PyError.datadome "blocked") else Outcome.ok 42, st, []))
        (fun _ => 0) protectionInit 3).result = some (Except.ok 42) ∧
     (retry_with_backoff
        (fun i st => (if i = 0 then Outcome.exn (PyError.datadome "blocked") else Outcome.ok 42, st, []))
        (fun _ => 0) protectionInit 3).calls = 2) :=
  ⟨(retry_budget_and_success
      (fun _ st => ((Outcome.exn (PyError.datadome "blocked") : Outcome Nat), st, []))
      (fun _ => 0) protectionInit 2 (fun _ => "blocked")
      (by norm_num)).1 (fun i st _ => rfl),
   (retry_budget_and_success
      (fun i st => (if i = 0 then Outcome.exn (PyError.datadome "blocked") else Outcome.ok 42, st, []))
      (fun _ => 0) protectionInit 3 (fun _ => "blocked")
      (by norm_num)).2 2 42 (by norm_num) (by norm_num)
      (fun i st hi => by
        have hi0 : i = 0 := by omega
        subst hi0
        rfl)
      (fun st => rfl)⟩

/-- C2: a non-`DatadomeError` exception is re-raised immediately: when the
first attempt raises any exception other than `DatadomeError`, the loop stops
after that single invocation with that exception, performing no backoff wait,
no identity rotation and no further attempt — the trace and state are exactly
those of the single call; and more generally, at whatever point of the loop
such an exception is raised, the loop re-raises it at once with no further
invocation. -/
theorem non_datadome_not_retried {α : Type}
    (func : Nat → ProtectionState → Outcome α × ProtectionState × List Event)
    (rand01 : Nat → ℚ) (s : ProtectionState) (N : Nat) (e : String)
    (s1 : ProtectionState) (evs : List Event) (hN : 1 ≤ N)
    (hf : func 0 s = (Outcome.exn (PyError.other e), s1, evs)) :
    retry_with_backoff func rand01 s N
      = ⟨some (Except.error (PyError.other e)), s1, evs, 1⟩ ∧
    (∀ g s2 s3 evs2, func (N - (g + 1)) s2 = (Outcome.exn (PyError.other e), s3, evs2) →
      retryLoop func rand01 N (g + 1) s2
        = ⟨some (Except.error (PyError.other e)), s3, evs2, 1⟩) := by
  constructor
  · obtain ⟨g, hgN⟩ : ∃ g, N = g + 1 := ⟨N - 1, by omega⟩
    subst hgN
    have h0 : g + 1 - (g + 1) = 0 := by omega
    rw [retry_with_backoff]
    simp only [retryLoop, h0, hf]
  · intro g s2 s3 evs2 hf2
    rw [retryLoop_succ, hf2]

/-- Witness for `non_datadome_not_retried`: an operation raising a
`RequestError`-style exception on the first attempt is re-raised after one
call, with the default budget `max_retries = 3` untouched. -/
theorem non_datadome_not_retried_witness :
    retry_with_backoff
        (fun _ st => ((Outcome.exn (PyError.other "request failed") : Outcome Nat), st, [Event.send 0]))
        (fun _ => 0) protectionInit 3
      = ⟨some (Except.error (PyError.other "request failed")), protectionInit, [Event.send 0], 1⟩ :=
  (non_datadome_not_retried _ (fun _ => 0) protectionInit 3 "request failed"
    protectionInit [Event.send 0] (by norm_num) rfl).1

/-- Modelled from the spec: member names of the lbc `Category` enum — the
`lbc.models.enums` module is not among the provided sources, so the table
lists the members pinned by the repository's tests.  Only membership of a
name matters to `app.py`, which resolves names via `getattr` with an
`AttributeError` fallback. -/
def categoryNames : List String := ["TOUTES_CATEGORIES", "IMMOBILIER", "VEHICULES"]

/-- Modelled from the spec: member names of the lbc `Sort` enum pinned by the
repository's tests. -/
def sortNames : List String := ["RELEVANCE", "NEWEST", "CHEAPEST"]

/-- Modelled from the spec: member names of the lbc `AdType` enum pinned by
the repository's tests. -/
def adTypeNames : List String := ["OFFER", "DEMAND"]

/-- Modelled from the spec: member names of the lbc `OwnerType` enum pinned
by the repository's tests. -/
def ownerTypeNames : List String := ["PRO", "PRIVATE", "ALL"]

/-- Embedding of Python `str.upper()` as used by the enum-resolution code:
upper-case every character.  (Core `String.toUpper` is the same
transformation but is defined by well-founded recursion on byte positions,
which the kernel cannot evaluate; mapping over the character list keeps the
definition executable.) -/
def strUpper (s : String) : String := ⟨s.data.map Char.toUpper⟩

/-- Embedding of the category resolution in the `/api/search` handler:
`getattr(Category, category_name.upper())`, falling back to
`Category.TOUTES_CATEGORIES` on `AttributeError`.  A resolved member is
represented by its canonical (upper-case) name. -/
def resolve_category (name : String) : String :=
  if strUpper name ∈ categoryNames then strUpper name else "TOUTES_CATEGORIES"

/-- Embedding of the sort resolution: `getattr(Sort, sort_name.upper())`,
falling back to `Sort.RELEVANCE` on `AttributeError`. -/
def resolve_sort (name : String) : String :=
  if strUpper name ∈ sortNames then strUpper name else "RELEVANCE"

/-- Embedding of the ad-type resolution: `getattr(AdType,
ad_type_name.upper())`, falling back to `AdType.OFFER` on `AttributeError`. -/
def resolve_ad_type (name : String) : String :=
  if strUpper name ∈ adTypeNames then strUpper name else "OFFER"

/-- Embedding of the owner-type resolution: `owner_type` starts as `None`; a
falsy (absent or empty) `owner_type` name leaves it `None`, and an unknown
name is swallowed by the `except AttributeError: pass`, also leaving it
`None`. -/
def resolve_owner_type (name : Option String) : Option String :=
  match name with
  | none => none
  | some n =>
    if n = "" then none
    else if strUpper n ∈ ownerTypeNames then some (strUpper n) else none

/-- Search-relevant fields of the JSON body accepted by `/api/search`;
`none` models an absent key. -/
structure SearchRequest where
  text : Option String
  category : Option String
  sort : Option String
  ad_type : Option String
  owner_type : Option String
deriving DecidableEq

/-- Enum parameters of the query assembled by the `/api/search` handler,
after name resolution with tolerant defaults. -/
structure BuiltQuery where
  category : String
  sort : String
  ad_type : String
  owner_type : Option String
deriving DecidableEq

/-- Embedding of the parameter-extraction and enum-resolution step of the
`/api/search` handler (`data.get` defaults followed by the four
`getattr`/fallback blocks).  The function is total: enum resolution never
fails. -/
def build_query (req : SearchRequest) : BuiltQuery :=
  { category := resolve_category (req.category.getD "TOUTES_CATEGORIES")
    sort := resolve_sort (req.sort.getD "RELEVANCE")
    ad_type := resolve_ad_type (req.ad_type.getD "OFFER")
    owner_type := resolve_owner_type req.owner_type }

/-- Embedding of the `perform_search` closure defined inside the `/api/search`
handler: each invocation creates a fresh protected client (advancing the
rotation cursor) and issues the search through it; `backend i` is the
backend's response to the request of attempt `i`, the way the repository's
tests mock `Client._fetch`. -/
def perform_search {α : Type} (backend : Nat → Outcome α) (attempt : Nat)
    (s : ProtectionState) : Outcome α × ProtectionState × List Event :=
  (backend attempt, (create_client_with_protection s).2,
    [Event.identitySelect, Event.send attempt])

/-- Run of the `/api/search` handler: the built query, the final result,
the final protection state and the event trace. -/
structure SearchRun (α : Type) where
  query : BuiltQuery
  result : Option (Except PyError α)
  state : ProtectionState
  trace : List Event

/-- Embedding of the `/api/search` handler's request cycle: build the query,
apply rate limiting once, then run `perform_search` under
`retry_with_backoff` with the default budget of 3. -/
def search_ads {α : Type} (req : SearchRequest) (backend : Nat → Outcome α)
    (now r : ℚ) (rand01 : Nat → ℚ) (s : ProtectionState) : SearchRun α :=
  let q := build_query req
  let s1 := (apply_rate_limiting s now r).2
  let res := retry_with_backoff (perform_search backend) rand01 s1 3
  ⟨q, res.result, res.state, Event.buildQuery :: Event.rateGate :: res.trace⟩

/-- Run of a single-resource handler: final result, final protection state
and event trace. -/
structure RouteRun (α : Type) where
  result : Option (Except PyError α)
  state : ProtectionState
  trace : List Event

/-- Embedding of the `/api/ad/<ad_id>` handler: it calls `client.get_ad` on
the module-level client directly — no rate limiting, no rotation, no retry;
the outcome (value or raised exception) is surfaced after the single
attempt. -/
def get_ad {α : Type} (backend : Outcome α) (s : ProtectionState) : RouteRun α :=
  match backend with
  | Outcome.ok v => ⟨some (Except.ok v), s, [Event.send 0]⟩
  | Outcome.exn e => ⟨some (Except.error e), s, [Event.send 0]⟩

/-- Embedding of the `/api/user/<user_id>` handler: like `/api/ad/<ad_id>`,
a single direct call on the module-level client with no protection. -/
def get_user {α : Type} (backend : Outcome α) (s : ProtectionState) : RouteRun α :=
  match backend with
  | Outcome.ok v => ⟨some (Except.ok v), s, [Event.send 0]⟩
  | Outcome.exn e => ⟨some (Except.error e), s, [Event.send 0]⟩

/-- Number of rate-gate events in a trace. -/
def countRateGate : List Event → Nat
  | [] => 0
  | Event.rateGate :: t => countRateGate t + 1
  | _ :: t => countRateGate t

/-- Number of sent requests (attempts) in a trace. -/
def countSend : List Event → Nat
  | [] => 0
  | Event.send _ :: t => countSend t + 1
  | _ :: t => countSend t

/-- Trace expected from a run of the retry loop in which the current attempt
`a` and the following `c - 1` attempts are blocked and attempt `a + c` ends
the loop: the per-attempt events `ev i`, interleaved after each blocked
attempt with the backoff wait of `2 ^ i + rand01 i` seconds and the
fresh-identity selection. -/
def retryTrace (ev : Nat → List Event) (rand01 : Nat → ℚ) : Nat → Nat → List Event
  | a, 0 => ev a
  | a, c + 1 =>
    ev a ++ Event.backoffWait a ((2 : ℚ) ^ a + rand01 a)
      :: Event.identitySelect :: retryTrace ev rand01 (a + 1) c

/-- Helper: `get_next_proxy` does not touch the request counter. -/
theorem get_next_proxy_request_count (s : ProtectionState) :
    (get_next_proxy s).2.request_count = s.request_count := by
  unfold get_next_proxy
  split
  · rfl
  · split <;> rfl

/-- Helper: `create_client_with_protection` does not touch the request
counter. -/
theorem create_client_request_count (s : ProtectionState) :
    (create_client_with_protection s).2.request_count = s.request_count := by
  have h1 := get_next_proxy_request_count s
  unfold create_client_with_protection
  rcases hg : get_next_proxy s with ⟨p, s1⟩
  rw [hg] at h1
  cases p <;> exact h1

/-- Helper: `apply_rate_limiting` increments the request counter by exactly
one. -/
theorem apply_rate_limiting_request_count (s : ProtectionState) (now r : ℚ) :
    ((apply_rate_limiting s now r).2).request_count = s.request_count + 1 := by
  unfold apply_rate_limiting
  by_cases h : now - s.last_request_time < s.min_delay <;> simp [h]

/-- Helper: the retry loop never touches the request counter, provided the
wrapped operation does not. -/
theorem retryLoop_request_count {α : Type}
    (func : Nat → ProtectionState → Outcome α × ProtectionState × List Event)
    (rand01 : Nat → ℚ) (N : Nat)
    (hfc : ∀ i st, ((func i st).2.1).request_count = st.request_count) :
    ∀ g s, (retryLoop func rand01 N g s).state.request_count = s.request_count := by
  intro g
  induction g with
  | zero => intro s; rfl
  | succ g ih =>
    intro s
    rcases hf : func (N - (g + 1)) s with ⟨out, s1, evs⟩
    have h1 : s1.request_count = s.request_count := by
      have h2 := hfc (N - (g + 1)) s
      rw [hf] at h2
      exact h2
    cases out with
    | ok v =>
      rw [retryLoop_succ, hf]
      exact h1
    | exn e =>
      cases e with
      | datadome e =>
        rw [retryLoop_succ, hf]
        dsimp only
        by_cases hc : N - (g + 1) = N - 1
        · rw [if_pos hc]
          exact h1
        · rw [if_neg hc]
          dsimp only
          rw [ih ((create_client_with_protection s1).2), create_client_request_count, h1]
      | other e =>
        rw [retryLoop_succ, hf]
        exact h1

/-- Helper: trace of a blocked-then-successful run of the retry loop.  When
the per-attempt events of the wrapped operation are state-independent, the
attempts from the current one up to the `c`-th following one raise
`DatadomeError` and that attempt returns a value, the recorded trace is
exactly `retryTrace ev rand01` from the current attempt index. -/
theorem retryLoop_success_trace {α : Type}
    (func : Nat → ProtectionState → Outcome α × ProtectionState × List Event)
    (rand01 : Nat → ℚ) (N : Nat) (m : Nat → String) (v : α) (ev : Nat → List Event)
    (hev : ∀ i st, (func i st).2.2 = ev i) :
    ∀ c g, c ≤ g → ∀ s, g + 1 ≤ N →
      (∀ i st, N - (g + 1) ≤ i → i < N - (g + 1) + c →
        (func i st).1 = Outcome.exn (PyError.datadome (m i))) →
      (∀ st, (func (N - (g + 1) + c) st).1 = Outcome.ok v) →
      (retryLoop func rand01 N (g + 1) s).trace
        = retryTrace ev rand01 (N - (g + 1)) c := by
  intro c
  induction c with
  | zero =>
    intro g hcg s hg hbl hok
    rcases hf : func (N - (g + 1)) s with ⟨out, s1, evs⟩
    have hout : out = Outcome.ok v := by
      have h2 := hok s
      rw [Nat.add_zero, hf] at h2
      exact h2
    subst hout
    have hevs : evs = ev (N - (g + 1)) := by
      have h2 := hev (N - (g + 1)) s
      rw [hf] at h2
      exact h2
    rw [retryLoop_succ, hf]
    dsimp only [retryTrace]
    exact hevs
  | succ c ih =>
    intro g hcg s hg hbl hok
    obtain ⟨g', hg'⟩ : ∃ g', g = g' + 1 := ⟨g - 1, by omega⟩
    subst hg'
    rcases hf : func (N - (g' + 1 + 1)) s with ⟨out, s1, evs⟩
    have hout : out = Outcome.exn (PyError.datadome (m (N - (g' + 1 + 1)))) := by
      have h2 := hbl (N - (g' + 1 + 1)) s (le_refl _) (by omega)
      rw [hf] at h2
      exact h2
    subst hout
    have hevs : evs = ev (N - (g' + 1 + 1)) := by
      have h2 := hev (N - (g' + 1 + 1)) s
      rw [hf] at h2
      exact h2
    have hne : ¬ (N - (g' + 1 + 1) = N - 1) := by omega
    have hrec := ih g' (by omega) ((create_client_with_protection s1).2) (by omega)
      (fun i st h1 h2 => hbl i st (by omega) (by omega))
      (fun st => by
        rw [show N - (g' + 1) + c = N - (g' + 1 + 1) + (c + 1) from by omega]
        exact hok st)
    rw [retryLoop_succ, hf]
    dsimp only
    rw [if_neg hne]
    dsimp only
    rw [hrec, hevs, show N - (g' + 1) = N - (g' + 1 + 1) + 1 from by omega]
    rfl

/-- Helper: rate-gate counting distributes over list append. -/
theorem countRateGate_append (l1 l2 : List Event) :
    countRateGate (l1 ++ l2) = countRateGate l1 + countRateGate l2 := by
  induction l1 with
  | nil => simp [countRateGate]
  | cons e t ih => cases e <;> simp [countRateGate, ih] <;> omega

/-- Helper: a retry trace contains no rate-gate event when the per-attempt
events contain none. -/
theorem countRateGate_retryTrace (ev : Nat → List Event) (rand01 : Nat → ℚ)
    (hev : ∀ i, countRateGate (ev i) = 0) :
    ∀ c a, countRateGate (retryTrace ev rand01 a c) = 0 := by
  intro c
  induction c with
  | zero => intro a; exact hev a
  | succ c ih =>
    intro a
    show countRateGate (ev a ++ Event.backoffWait a ((2 : ℚ) ^ a + rand01 a)
      :: Event.identitySelect :: retryTrace ev rand01 (a + 1) c) = 0
    rw [countRateGate_append, hev a, Nat.zero_add]
    show countRateGate (retryTrace ev rand01 (a + 1) c) = 0
    exact ih (a + 1)

/-- Concrete search request used in counterexamples and witnesses. -/
def reqExample : SearchRequest :=
  { text := some "maison", category := some "IMMOBILIER", sort := some "NEWEST",
    ad_type := some "OFFER", owner_type := none }

/-- Concrete backend used in counterexamples and witnesses: blocked on the
first attempt, successful on the second. -/
def backendExample : Nat → Outcome Nat := fun i =>
  if i = 0 then Outcome.exn (PyError.datadome "blocked") else Outcome.ok 7

/-- C4 counterexample: in a concrete run of the `/api/search` cycle where the
first attempt is blocked and the second succeeds, two requests are sent but
the rate gate is passed only once — the retried attempt does not go back
through `apply_rate_limiting`, refuting the claim that every retried attempt
passes through the rate gate (step 1) again before its request is sent. -/
theorem retry_skips_rate_gate_cex :
    countSend (search_ads reqExample backendExample 100 0 (fun _ => 0) protectionInit).trace = 2 ∧
    countRateGate (search_ads reqExample backendExample 100 0 (fun _ => 0) protectionInit).trace = 1 :=
  ⟨rfl, rfl⟩

/-- C4 (amended): after every anti-bot block with attempt count below
`max_retries`, the cycle waits `2 ^ attempt + random(0, 1)` seconds, advances
the rotation cursor to a fresh identity and then retries the request
directly; the rate gate is passed exactly once per request cycle, before the
first attempt, and retried attempts do not pass through it again.  For a
backend blocked on the first `k` attempts (`k < 3`) and successful on attempt
`k`, the cycle returns the success value, its trace is the query build and a
single rate gate followed by the per-attempt events interleaved with the
backoff waits and identity selections, the request counter grows by exactly
one (one rate-gate pass), and the trace contains exactly one rate-gate
event. -/
theorem retry_cycle_backoff_rotation {α : Type} (req : SearchRequest)
    (backend : Nat → Outcome α) (now r : ℚ) (rand01 : Nat → ℚ)
    (s : ProtectionState) (k : Nat) (v : α) (m : Nat → String)
    (hk : k < 3)
    (hbl : ∀ i, i < k → backend i = Outcome.exn (PyError.datadome (m i)))
    (hok : backend k = Outcome.ok v) :
    (search_ads req backend now r rand01 s).result = some (Except.ok v) ∧
    (search_ads req backend now r rand01 s).trace
      = Event.buildQuery :: Event.rateGate
          :: retryTrace (fun i => [Event.identitySelect, Event.send i]) rand01 0 k ∧
    (search_ads req backend now r rand01 s).state.request_count = s.request_count + 1 ∧
    countRateGate (search_ads req backend now r rand01 s).trace = 1 := by
  have hblf : ∀ i st, 3 - (2 + 1) ≤ i → i < 3 - (2 + 1) + k →
      (perform_search backend i st).1 = Outcome.exn (PyError.datadome (m i)) :=
    fun i st h1 h2 => hbl i (by omega)
  have hokf : ∀ st, (perform_search backend (3 - (2 + 1) + k) st).1 = Outcome.ok v :=
    fun st => by
      rw [show (3 : Nat) - (2 + 1) + k = k from by omega]
      exact hok
  have hres := retryLoop_success (perform_search backend) rand01 3 m v k 2
    (by omega) ((apply_rate_limiting s now r).2) (by omega) hblf hokf
  have htr := retryLoop_success_trace (perform_search backend) rand01 3 m v
    (fun i => [Event.identitySelect, Event.send i]) (fun i st => rfl) k 2
    (by omega) ((apply_rate_limiting s now r).2) (by omega) hblf hokf
  refine ⟨hres.1, ?_, ?_, ?_⟩
  · show Event.buildQuery :: Event.rateGate
        :: (retryLoop (perform_search backend) rand01 3 (2 + 1)
            ((apply_rate_limiting s now r).2)).trace = _
    rw [htr]
  · show (retryLoop (perform_search backend) rand01 3 (2 + 1)
        ((apply_rate_limiting s now r).2)).state.request_count = s.request_count + 1
    rw [retryLoop_request_count (perform_search backend) rand01 3
      (fun i st => create_client_request_count st) (2 + 1) ((apply_rate_limiting s now r).2)]
    exact apply_rate_limiting_request_count s now r
  · show countRateGate ((retryLoop (perform_search backend) rand01 3 (2 + 1)
        ((apply_rate_limiting s now r).2)).trace) + 1 = 1
    rw [htr, countRateGate_retryTrace (fun i => [Event.identitySelect, Event.send i])
      rand01 (fun i => rfl) k (3 - (2 + 1))]

/-- Witness for `retry_cycle_backoff_rotation`: the concrete
blocked-then-successful run records the query build, one rate gate, the
blocked attempt with its backoff wait and identity rotation, and the retried
attempt. -/
theorem retry_cycle_backoff_rotation_witness :
    (search_ads reqExample backendExample 100 0 (fun _ => 0) protectionInit).trace
      = Event.buildQuery :: Event.rateGate
          :: retryTrace (fun i => [Event.identitySelect, Event.send i]) (fun _ => 0) 0 1 :=
  (retry_cycle_backoff_rotation reqExample backendExample 100 0 (fun _ => 0)
    protectionInit 1 7 (fun _ => "blocked") (by omega)
    (fun i hi => by
      have h0 : i = 0 := by omega
      subst h0
      rfl)
    rfl).2.1

/-- C5 counterexample: on a concrete `DatadomeError` outcome, the
`/api/ad/<ad_id>` handler performs a single attempt with no rate gate, no
state change and no retry — it does not run through the Session Manager's
retry/backoff cycle as the claim states for all three operations. -/
theorem get_ad_no_protection_cex :
    (get_ad (Outcome.exn (PyError.datadome "blocked") : Outcome Nat) protectionInit).trace
        = [Event.send 0] ∧
    countRateGate
      (get_ad (Outcome.exn (PyError.datadome "blocked") : Outcome Nat) protectionInit).trace = 0 ∧
    (get_ad (Outcome.exn (PyError.datadome "blocked") : Outcome Nat) protectionInit).state
        = protectionInit ∧
    (get_ad (Outcome.exn (PyError.datadome "blocked") : Outcome Nat) protectionInit).result
        = some (Except.error (PyError.datadome "blocked")) :=
  ⟨rfl, rfl, rfl, rfl⟩

/-- C5 (amended): only `search` runs its request through the Session
Manager's cycle — its trace starts with the query build followed by the rate
gate and its run bumps the request counter; `get_ad` and `get_user` issue a
single direct request through the module-level client, leaving the
protection state untouched and propagating any raised exception (including
`DatadomeError`) after the single attempt, and they never invoke the
query-building step. -/
theorem only_search_uses_protection {α β : Type} (req : SearchRequest)
    (backend : Nat → Outcome α) (b : Outcome β) (now r : ℚ) (rand01 : Nat → ℚ)
    (s : ProtectionState) :
    ((search_ads req backend now r rand01 s).trace.take 2
        = [Event.buildQuery, Event.rateGate] ∧
     (search_ads req backend now r rand01 s).state.request_count = s.request_count + 1) ∧
    ((get_ad b s).trace = [Event.send 0] ∧ (get_ad b s).state = s ∧
     ∀ e, get_ad (Outcome.exn e : Outcome β) s
        = ⟨some (Except.error e), s, [Event.send 0]⟩) ∧
    ((get_user b s).trace = [Event.send 0] ∧ (get_user b s).state = s ∧
     ∀ e, get_user (Outcome.exn e : Outcome β) s
        = ⟨some (Except.error e), s, [Event.send 0]⟩) := by
  refine ⟨⟨rfl, ?_⟩, ⟨?_, ?_, fun e => rfl⟩, ⟨?_, ?_, fun e => rfl⟩⟩
  · show (retryLoop (perform_search backend) rand01 3 (2 + 1)
        ((apply_rate_limiting s now r).2)).state.request_count = s.request_count + 1
    rw [retryLoop_request_count (perform_search backend) rand01 3
      (fun i st => create_client_request_count st) (2 + 1) ((apply_rate_limiting s now r).2)]
    exact apply_rate_limiting_request_count s now r
  · cases b <;> rfl
  · cases b <;> rfl
  · cases b <;> rfl
  · cases b <;> rfl

/-- C7: unknown enum names fall back to the documented defaults rather than
failing.  `build_query` is total (enum resolution cannot fail), and whenever
the (defaulted) category, sort or ad-type name does not match a known enum
member after upper-casing, the built query holds `TOUTES_CATEGORIES`,
`RELEVANCE` and `OFFER` respectively; an unknown owner-type name leaves
`owner_type` unset. -/
theorem unknown_enum_names_fall_back (req : SearchRequest) :
    (strUpper (req.category.getD "TOUTES_CATEGORIES") ∉ categoryNames →
      (build_query req).category = "TOUTES_CATEGORIES") ∧
    (strUpper (req.sort.getD "RELEVANCE") ∉ sortNames →
      (build_query req).sort = "RELEVANCE") ∧
    (strUpper (req.ad_type.getD "OFFER") ∉ adTypeNames →
      (build_query req).ad_type = "OFFER") ∧
    (∀ name, req.owner_type = some name → strUpper name ∉ ownerTypeNames →
      (build_query req).owner_type = none) := by
  refine ⟨fun h => ?_, fun h => ?_, fun h => ?_, fun name hn h => ?_⟩
  · show resolve_category (req.category.getD "TOUTES_CATEGORIES") = _
    unfold resolve_category
    rw [if_neg h]
  · show resolve_sort (req.sort.getD "RELEVANCE") = _
    unfold resolve_sort
    rw [if_neg h]
  · show resolve_ad_type (req.ad_type.getD "OFFER") = _
    unfold resolve_ad_type
    rw [if_neg h]
  · show resolve_owner_type req.owner_type = none
    rw [hn]
    show (if name = "" then none
      else if strUpper name ∈ ownerTypeNames then some (strUpper name) else none) = none
    by_cases he : name = ""
    · rw [if_pos he]
    · rw [if_neg he, if_neg h]

/-- Concrete request with unknown enum names everywhere. -/
def reqNope : SearchRequest :=
  { text := none, category := some "NOPE", sort := some "NOPE",
    ad_type := some "NOPE", owner_type := some "NOPE" }

/-- Witness for `unknown_enum_names_fall_back`: the unknown name `NOPE` falls
back to All-categories, Relevance, Offer and an unset owner type. -/
theorem unknown_enum_names_fall_back_witness :
    (build_query reqNope).category = "TOUTES_CATEGORIES" ∧
    (build_query reqNope).sort = "RELEVANCE" ∧
    (build_query reqNope).ad_type = "OFFER" ∧
    (build_query reqNope).owner_type = none :=
  ⟨(unknown_enum_names_fall_back reqNope).1 (by decide),
   (unknown_enum_names_fall_back reqNope).2.1 (by decide),
   (unknown_enum_names_fall_back reqNope).2.2.1 (by decide),
   (unknown_enum_names_fall_back reqNope).2.2.2 "NOPE" rfl (by decide)⟩

/-- Wire payload of an ad as the backend returns it, with the fields the
repository's tests pin (`test_search_basic`, `test_get_ad_success`). -/
structure AdPayload where
  list_id : ℤ
  subject : String
  body : String
  price_cents : ℤ
  url : String
  category_name : String
  ad_type : String
  has_phone : Bool
deriving DecidableEq

/-- Mapped `Ad` entity as observed through the handlers and the tests. -/
structure Ad where
  id : ℤ
  subject : String
  body : String
  price : ℚ
  url : String
  category_name : String
  ad_type : String
  has_phone : Bool
deriving DecidableEq

/-- Modelled from the spec: the Response Mapper of the lbc library (not among
the provided sources) maps the wire ad payload to the typed `Ad`, copying the
identifying and descriptive fields and converting the price from minor units
on the way into the domain type: `price == price_cents / 100`, exactly and
uniformly. -/
def map_ad (p : AdPayload) : Ad :=
  { id := p.list_id, subject := p.subject, body := p.body,
    price := (p.price_cents : ℚ) / 100, url := p.url,
    category_name := p.category_name, ad_type := p.ad_type,
    has_phone := p.has_phone }

/-- C8: the price conversion from minor units is exact — multiplying the
mapped domain price back by 100 recovers the wire `price_cents` with no
rounding, for every payload; in particular the tests' payload with
`price_cents = 50000000` maps to `price = 500000`. -/
theorem price_minor_units (p : AdPayload) :
    100 * (map_ad p).price = (p.price_cents : ℚ) ∧
    (map_ad { p with price_cents := 50000000 }).price = 500000 := by
  constructor
  · show 100 * ((p.price_cents : ℚ) / 100) = (p.price_cents : ℚ)
    field_simp
  · show ((50000000 : ℤ) : ℚ) / 100 = 500000
    norm_num

/-- Value of an enum filter element as passed in the search parameters: the
tests exercise string and integer elements. -/
inductive FilterVal where
  | str (s : String)
  | int (n : ℤ)
deriving DecidableEq

/-- Type tag of a filter element (`true` for strings). -/
def FilterVal.isStr : FilterVal → Bool
  | FilterVal.str _ => true
  | FilterVal.int _ => false

/-- Construction-time error of the lbc query builder. -/
inductive LbcError where
  | invalidValue
deriving DecidableEq

/-- Modelled from the spec: the lbc query builder (not among the provided
sources) validates each Enum filter at query-construction time, before any
network activity: the elements must be homogeneously typed within a filter,
and a mixed-typed filter raises `InvalidValue` — a hard contract, never a
silent coercion. -/
def check_enum_filter (name : String) (vals : List FilterVal) :
    Except LbcError (String × List FilterVal) :=
  match vals with
  | [] => Except.ok (name, [])
  | v :: rest =>
    if rest.all (fun w => FilterVal.isStr w == FilterVal.isStr v) then
      Except.ok (name, v :: rest)
    else Except.error LbcError.invalidValue

/-- C9: an Enum filter containing two elements of different types always
raises `InvalidValue` at construction time; a filter whose elements all have
one single type never does and passes through unchanged. -/
theorem enum_filter_type_contract (name : String) (vals : List FilterVal) :
    ((∃ v ∈ vals, ∃ w ∈ vals, FilterVal.isStr v ≠ FilterVal.isStr w) →
      check_enum_filter name vals = Except.error LbcError.invalidValue) ∧
    ((∀ v ∈ vals, ∀ w ∈ vals, FilterVal.isStr v = FilterVal.isStr w) →
      check_enum_filter name vals = Except.ok (name, vals)) := by
  cases vals with
  | nil =>
    refine ⟨fun h => ?_, fun h => rfl⟩
    obtain ⟨v, hv, hrest⟩ := h
    exact absurd hv (List.not_mem_nil v)
  | cons v rest =>
    have hkey : (rest.all fun w => FilterVal.isStr w == FilterVal.isStr v) = true
        ↔ ∀ w ∈ rest, FilterVal.isStr w = FilterVal.isStr v := by
      rw [List.all_eq_true]
      constructor
      · exact fun h w hw => beq_iff_eq.mp (h w hw)
      · exact fun h w hw => beq_iff_eq.mpr (h w hw)
    constructor
    · intro h
      obtain ⟨a, ha, b, hb, hab⟩ := h
      have htag : ¬ ∀ w ∈ rest, FilterVal.isStr w = FilterVal.isStr v := by
        intro hall
        have hx : ∀ x ∈ v :: rest, FilterVal.isStr x = FilterVal.isStr v := by
          intro x hx
          rcases List.mem_cons.mp hx with hx | hx
          · rw [hx]
          · exact hall x hx
        exact hab ((hx a ha).trans (hx b hb).symm)
      show (if (rest.all fun w => FilterVal.isStr w == FilterVal.isStr v) = true
        then Except.ok (name, v :: rest) else Except.error LbcError.invalidValue) = _
      rw [if_neg (fun hc => htag (hkey.mp hc))]
    · intro h
      have hall : ∀ w ∈ rest, FilterVal.isStr w = FilterVal.isStr v :=
        fun w hw => h w (List.mem_cons_of_mem v hw) v (List.mem_cons_self v rest)
      show (if (rest.all fun w => FilterVal.isStr w == FilterVal.isStr v) = true
        then Except.ok (name, v :: rest) else Except.error LbcError.invalidValue) = _
      rw [if_pos (hkey.mpr hall)]

/-- Witness for `enum_filter_type_contract`: the tests' mixed `rooms`
filter `[1, "2", 3]` raises `InvalidValue`, while a homogeneous string
filter passes through. -/
theorem enum_filter_type_contract_witness :
    check_enum_filter "rooms" [FilterVal.int 1, FilterVal.str "2", FilterVal.int 3]
        = Except.error LbcError.invalidValue ∧
    check_enum_filter "rooms" [FilterVal.str "2", FilterVal.str "3", FilterVal.str "4"]
        = Except.ok ("rooms", [FilterVal.str "2", FilterVal.str "3", FilterVal.str "4"]) :=
  ⟨(enum_filter_type_contract "rooms"
      [FilterVal.int 1, FilterVal.str "2", FilterVal.int 3]).1 (by decide),
   (enum_filter_type_contract "rooms"
      [FilterVal.str "2", FilterVal.str "3", FilterVal.str "4"]).2 (by decide)⟩

/-- Body of a POST to `/api/protection/config` as far as the handler reads
it: optional numeric `min_delay` and `max_delay` entries (other keys are
ignored). -/
structure ConfigBody where
  min_delay : Option ℚ
  max_delay : Option ℚ
deriving DecidableEq

/-- Embedding of the `update_protection_config` handler: a present
`min_delay` is clamped below by 1 (`max(1, ...)`); a present `max_delay` is
clamped below by the possibly just-updated `min_delay`
(`max(protection.min_delay, ...)`). -/
def update_protection_config (s : ProtectionState) (body : ConfigBody) : ProtectionState :=
  let s1 := match body.min_delay with
    | some v => { s with min_delay := max 1 v }
    | none => s
  match body.max_delay with
  | some v => { s1 with max_delay := max s1.min_delay v }
  | none => s1

/-- C10 counterexample: the invariant `min_delay ≤ max_delay` is not
preserved by every accepted body — from the initial state (`min_delay = 2`,
`max_delay = 5`), the accepted body setting only `min_delay` to 10 yields
`min_delay = 10` with `max_delay = 5` unchanged, so `min_delay ≤ max_delay`
fails. -/
theorem config_invariant_cex :
    (update_protection_config protectionInit
        { min_delay := some 10, max_delay := none }).min_delay = 10 ∧
    (update_protection_config protectionInit
        { min_delay := some 10, max_delay := none }).max_delay = 5 ∧
    ¬ ((update_protection_config protectionInit
          { min_delay := some 10, max_delay := none }).min_delay
        ≤ (update_protection_config protectionInit
          { min_delay := some 10, max_delay := none }).max_delay) := by
  refine ⟨?_, rfl, ?_⟩
  · show max (1 : ℚ) 10 = 10
    norm_num
  · show ¬ (max (1 : ℚ) 10 ≤ 5)
    norm_num

/-- C10 (amended): the initial state satisfies `1 ≤ min_delay ≤ max_delay`;
every accepted update preserves `1 ≤ min_delay`; and `min_delay ≤ max_delay`
is preserved by every body that sets `max_delay` and by every body that does
not set `min_delay` — but not, per the counterexample, by a body that sets
only `min_delay` to a value above the current `max_delay`. -/
theorem config_invariant_amended (s : ProtectionState) (body : ConfigBody)
    (h1 : 1 ≤ s.min_delay) (h2 : s.min_delay ≤ s.max_delay) :
    (1 ≤ protectionInit.min_delay ∧ protectionInit.min_delay ≤ protectionInit.max_delay) ∧
    1 ≤ (update_protection_config s body).min_delay ∧
    ((body.max_delay ≠ none ∨ body.min_delay = none) →
      (update_protection_config s body).min_delay
        ≤ (update_protection_config s body).max_delay) := by
  refine ⟨⟨by norm_num [protectionInit], by norm_num [protectionInit]⟩, ?_, ?_⟩
  · rcases body with ⟨mn, mx⟩
    unfold update_protection_config
    rcases mn with _ | vmin <;> rcases mx with _ | vmax <;> dsimp only
    · exact h1
    · exact h1
    · exact le_max_left 1 vmin
    · exact le_max_left 1 vmin
  · intro hcase
    rcases body with ⟨mn, mx⟩
    unfold update_protection_config
    rcases mn with _ | vmin <;> rcases mx with _ | vmax <;> dsimp only
    · exact h2
    · exact le_max_left s.min_delay vmax
    · exfalso
      rcases hcase with hc | hc
      · exact hc rfl
      · exact Option.noConfusion hc
    · exact le_max_left (max 1 vmin) vmax

/-- Witness for `config_invariant_amended`: updating the initial state with
`min_delay = 3` and `max_delay = 4` keeps `1 ≤ min_delay ≤ max_delay`. -/
theorem config_invariant_amended_witness :
    1 ≤ (update_protection_config protectionInit
        { min_delay := some 3, max_delay := some 4 }).min_delay ∧
    (update_protection_config protectionInit
        { min_delay := some 3, max_delay := some 4 }).min_delay
      ≤ (update_protection_config protectionInit
        { min_delay := some 3, max_delay := some 4 }).max_delay :=
  ⟨(config_invariant_amended protectionInit
      { min_delay := some 3, max_delay := some 4 }
      (by norm_num [protectionInit]) (by norm_num [protectionInit])).2.1,
   (config_invariant_amended protectionInit
      { min_delay := some 3, max_delay := some 4 }
      (by norm_num [protectionInit]) (by norm_num [protectionInit])).2.2
      (Or.inl (Option.some_ne_none 4))⟩

end LbcApp
